import Mathlib

/-!
Shallow embedding of the coder/create-task-action repository: the Coder API
client (`coder-client.ts`), the input schemas (`schemas.ts`) and the action
orchestration (`action.ts`, `CoderTaskAction.run`), together with proofs of
the specification claims about them.

Machine conventions: JavaScript promises that may reject are modelled as
`Except RunError`; network round-trips are modelled as environment fields
holding the outcome the remote would deliver; the sequence of outward
side-effecting calls made by a run is modelled as an explicit `Event` trace.
-/

namespace CoderAction

/-- Error values a run can abort with.  `api` models a thrown `CoderAPIError`
(message, statusCode, optional captured raw body); `jsError` models
`throw new Error(message)`; `jsThrow` models throwing a bare string. -/
inductive RunError where
  | api (message : String) (statusCode : Nat) (rawBody : Option String)
  | jsError (message : String)
  | jsThrow (message : String)
  deriving DecidableEq, Repr

/-- Task status enum from `ExperimentalCoderSDKTaskStatusSchema`. -/
inductive TaskStatus where
  | pending
  | initializing
  | active
  | paused
  | unknown
  | error
  deriving DecidableEq, Repr

/-- Task state enum from `ExperimentalCoderSDKTaskStateEntrySchema`. -/
inductive TaskStateKind where
  | idle
  | working
  | complete
  | failed
  deriving DecidableEq, Repr

/-- The `current_state` object of a task: `{ state: ... }`. -/
structure TaskStateEntry where
  state : TaskStateKind
  deriving DecidableEq, Repr

/-- A task, from `ExperimentalCoderSDKTaskSchema` (fields not consulted by the
action are omitted). -/
structure CoderTask where
  id : String
  name : String
  status : TaskStatus
  current_state : Option TaskStateEntry
  deriving DecidableEq, Repr

/-- A Coder user, from `CoderSDKUserSchema` (fields not consulted by the
action are omitted). -/
structure CoderUser where
  id : String
  username : String
  github_com_user_id : Option Nat
  deriving DecidableEq, Repr

/-- A template, from `CoderSDKTemplateSchema`. -/
structure CoderTemplate where
  id : String
  name : String
  active_version_id : String
  deriving DecidableEq, Repr

/-- A template version preset, from `CoderSDKTemplateVersionPresetSchema`. -/
structure CoderPreset where
  ID : String
  Name : String
  Default : Bool
  deriving DecidableEq, Repr

/-- The body of a create-task request, from
`ExperimentalCoderSDKCreateTaskRequestSchema`. -/
structure CreateTaskRequest where
  name : String
  template_version_id : String
  template_version_preset_id : Option String
  input : String
  deriving DecidableEq, Repr

/-! ## The request layer (`RealCoderClient.request`) -/

/-- An HTTP response as observed by `RealCoderClient.request`.  `textResult`
is the outcome of `response.text()` (`none` models a rejected promise, the
capture failure); `jsonBody` is the body text handed to `response.json()`
when it is parsed. -/
structure HttpResponse where
  status : Nat
  statusText : String
  contentLength : Option String
  textResult : Option String
  jsonBody : String
  deriving DecidableEq, Repr

/-- Whether `response.ok` holds, i.e. the status is in the 2xx range. -/
def respOk (r : HttpResponse) : Bool :=
  decide (200 ≤ r.status) && decide (r.status < 300)

/-- `RealCoderClient.request`: non-2xx raises `CoderAPIError` with the status
code and the best-effort body text (a rejected `text()` is swallowed via
`.catch(() => "")`); a 204 or `content-length: 0` response yields an empty
result (`none`) without JSON parsing; otherwise the body is parsed. -/
def request (r : HttpResponse) : Except RunError (Option String) :=
  if respOk r = false then
    .error (.api ("Coder API error: " ++ r.statusText) r.status
      (some (r.textResult.getD "")))
  else if r.status = 204 ∨ r.contentLength = some "0" then
    .ok none
  else
    .ok (some r.jsonBody)

/-! ## Identity resolution (`RealCoderClient.getCoderUserByGitHubId`) -/

/-- `RealCoderClient.getCoderUserByGitHubId`: rejects an absent GitHub user
id with a 400 `CoderAPIError` and a zero id with a thrown string, both before
consulting the network; then enforces the exactly-one invariant on the user
search result (`404` on zero matches, `409` on several, the user itself on
exactly one).  `net` is the outcome of the user-search round-trip. -/
def getCoderUserByGitHubId (githubUserId : Option Nat)
    (net : Except RunError (List CoderUser)) : Except RunError CoderUser :=
  match githubUserId with
  | none => .error (.api "GitHub user ID cannot be undefined" 400 none)
  | some gid =>
    if gid = 0 then
      .error (.jsThrow "GitHub user ID cannot be 0")
    else
      match net with
      | .error e => .error e
      | .ok users =>
        match users with
        | [] => .error (.api
            ("No Coder user found with GitHub user ID " ++ toString gid) 404 none)
        | [u] => .ok u
        | _ :: _ :: _ => .error (.api
            ("Multiple Coder users found with GitHub user ID " ++ toString gid) 409 none)

/-! ## Task lookup (`RealCoderClient.getTask`) -/

/-- Whether an error is a `CoderAPIError` with status code 404 (the test the
`catch` block of `getTask` performs). -/
def isApi404 : RunError → Bool
  | .api _ 404 _ => true
  | _ => false

/-- `RealCoderClient.getTask`: lists the owner tasks and scans for the first
task whose name equals `taskName`; a 404 `CoderAPIError` from the lookup is
mapped to "no task" (`none`); every other error propagates.  `listNet` is the
outcome of the list-tasks round-trip (including response validation). -/
def getTask (listNet : Except RunError (List CoderTask)) (taskName : String) :
    Except RunError (Option CoderTask) :=
  match listNet with
  | .ok tasks => .ok (tasks.find? (fun t => t.name = taskName))
  | .error e => if isApi404 e then .ok none else .error e

/-! ## Ready-wait (`RealCoderClient.waitForTaskActive`) -/

/-- Whether a task is ready: `status === "active" && current_state &&
current_state.state === "idle"`. -/
def taskIsReady (t : CoderTask) : Bool :=
  decide (t.status = .active) &&
    (match t.current_state with
     | some cs => decide (cs.state = .idle)
     | none => false)

/-- The message of the timeout error thrown by `waitForTaskActive`. -/
def waitTimeoutMsg (timeoutMs : Nat) : String :=
  "Timeout waiting for task to reach active state (waited " ++
    toString timeoutMs ++ "ms)"

/-- The poll loop of `waitForTaskActive`.  `fetch n` is the task returned by
the `getTaskById` round-trip on the n-th tick; the elapsed wall clock before
tick `n` is `n * 2000` (the fixed 2-second poll interval).  The `fuel`
argument bounds the recursion; when it runs out the loop-exit timeout error
is produced, and `waitForTaskActive` supplies enough fuel that this case
coincides with the genuine loop exit. -/
def waitForTaskActiveAux (fetch : Nat → CoderTask) (timeoutMs : Nat) :
    Nat → Nat → Except RunError Unit
  | 0, _ => .error (.api (waitTimeoutMsg timeoutMs) 408 none)
  | fuel + 1, tick =>
    if tick * 2000 < timeoutMs then
      let task := fetch tick
      if task.status = .error then
        .error (.api "Task entered error state while waiting for active state" 500 none)
      else if taskIsReady task then
        .ok ()
      else
        waitForTaskActiveAux fetch timeoutMs fuel (tick + 1)
    else
      .error (.api (waitTimeoutMsg timeoutMs) 408 none)

/-- `RealCoderClient.waitForTaskActive`: polls `getTaskById` every 2 seconds
until the task is active and idle (success), the task status is `error`
(immediate terminal failure, 500), or the elapsed time reaches the timeout
budget (timeout failure, 408, message carrying the budget). -/
def waitForTaskActive (fetch : Nat → CoderTask) (timeoutMs : Nat) :
    Except RunError Unit :=
  waitForTaskActiveAux fetch timeoutMs (timeoutMs / 2000 + 1) 0

/-! ## Preset selection (`CoderTaskAction.run`, preset block) -/

/-- JavaScript truthiness of the optional `coderTemplatePreset` input: an
absent value and the empty string are falsy. -/
def jsTruthy : Option String → Bool
  | none => false
  | some s => decide (s ≠ "")

/-- The preset-selection loops of `CoderTaskAction.run`: with no (truthy)
requested preset, the first preset with `Default` set wins; with a requested
name, the first preset with that exact name wins; `none` when the scan finds
nothing. -/
def selectPreset (presets : List CoderPreset) (requested : Option String) :
    Option String :=
  if jsTruthy requested = false then
    (presets.find? (fun p => p.Default)).map (fun p => p.ID)
  else
    (presets.find? (fun p => some p.Name = requested)).map (fun p => p.ID)

/-- The guard after preset selection: a truthy requested preset that matched
nothing is a hard error naming the request; otherwise the (possibly absent)
preset id is passed on. -/
def presetGuard (requested : Option String) (presetID : Option String) :
    Except RunError (Option String) :=
  if jsTruthy requested && presetID.isNone then
    .error (.jsError ("Preset " ++ requested.getD "" ++ " not found"))
  else
    .ok presetID

/-! ## Task URL generation (`CoderTaskAction.generateTaskUrl`) -/

/-- The base-URL part of `coderURL.split(/[?#]/)[0]`: everything before the
first `?` or `#`. -/
def splitBase (s : String) : String :=
  String.mk (s.data.takeWhile (fun c => decide (c ≠ '?') && decide (c ≠ '#')))

/-- The effect of `.replace(/\/$/, "")`: drop a single trailing slash. -/
def stripTrailingSlash (s : String) : String :=
  match s.data.getLast? with
  | some '/' => String.mk s.data.dropLast
  | _ => s

/-- `CoderTaskAction.generateTaskUrl`: strip query/fragment and a trailing
slash from the configured deployment URL, then append
`/tasks/{username}/{taskID}`. -/
def generateTaskUrl (coderURL username taskID : String) : String :=
  stripTrailingSlash (splitBase coderURL) ++ "/tasks/" ++ username ++ "/" ++ taskID

/-! ## Issue URL parsing (`CoderTaskAction.parseGithubIssueURL`) -/

/-- Split a character list on `/`. -/
def splitSlashAux : List Char → List Char → List String
  | [], acc => [String.mk acc.reverse]
  | '/' :: rest, acc => String.mk acc.reverse :: splitSlashAux rest []
  | c :: rest, acc => splitSlashAux rest (c :: acc)

/-- Split a string on `/` into its components. -/
def splitSlash (s : String) : List String :=
  splitSlashAux s.data []

/-- Value of a list of decimal digit characters. -/
def digitsToNat (l : List Char) : Nat :=
  l.foldl (fun n c => n * 10 + (c.toNat - 48)) 0

/-- Scan of the regex `([^/]+)\/([^/]+)\/issues\/(\d+)` over the
slash-separated components of the issue URL: the first position with two
non-empty components followed by the literal component `issues` and a
component starting with digits yields (org, repo, issue number). -/
def findIssueRef : List String → Option (String × String × Nat)
  | a :: b :: c :: d :: rest =>
    let digits := d.data.takeWhile Char.isDigit
    if a ≠ "" ∧ b ≠ "" ∧ c = "issues" ∧ digits ≠ [] then
      some (a, b, digitsToNat digits)
    else
      findIssueRef (b :: c :: d :: rest)
  | _ => none

/-- `CoderTaskAction.parseGithubIssueURL`: a falsy (empty) URL is "Missing
issue URL"; a URL the regex does not match is "Invalid issue URL"; otherwise
the captured org, repo and issue number. -/
def parseGithubIssueURL (url : String) : Except RunError (String × String × Nat) :=
  if url = "" then
    .error (.jsError "Missing issue URL")
  else
    match findIssueRef (splitSlash url) with
    | some r => .ok r
    | none => .error (.jsError ("Invalid issue URL: " ++ url))

/-! ## Inputs and input validation (`schemas.ts`) -/

/-- The action inputs after `ActionInputsSchema.parse` (`coderTaskNamePfx`
embeds the `coderTaskNamePrefix` input). -/
structure ActionInputs where
  coderURL : String
  coderToken : String
  coderTemplateName : String
  coderTaskPrompt : String
  coderOrganization : String
  coderTaskNamePfx : String
  githubIssueURL : String
  githubToken : String
  githubUserID : Option Nat
  coderUsername : Option String
  coderTemplatePreset : Option String
  commentOnIssue : Bool

/-- The user-identification part of `ActionInputsSchema`: the union of
`WithGithubUserIDSchema` (`githubUserID : number().min(1)`,
`coderUsername : undefined()`) and `WithCoderUsernameSchema`
(`githubUserID : undefined()`, `coderUsername : string().min(1)`). -/
def validIdentity (i : ActionInputs) : Bool :=
  match i.githubUserID, i.coderUsername with
  | some gid, none => decide (1 ≤ gid)
  | none, some u => decide (1 ≤ u.length)
  | _, _ => false

/-- The action outputs (`ActionOutputsSchema`). -/
structure ActionOutputs where
  coderUsername : String
  taskName : String
  taskUrl : String
  taskCreated : Bool
  deriving DecidableEq, Repr

/-! ## Environments: the remote deployment and GitHub -/

/-- Outcomes the Coder deployment delivers to each client call of one run:
the user search, the template fetch, the presets fetch, the task list, the
per-tick task fetch of the ready-wait poll, the input send, and task
creation. -/
structure RemoteEnv where
  usersNet : Except RunError (List CoderUser)
  templateNet : Except RunError CoderTemplate
  presetsNet : Except RunError (List CoderPreset)
  tasksNet : Except RunError (List CoderTask)
  pollFetch : Nat → CoderTask
  sendNet : Except RunError Unit
  createNet : CreateTaskRequest → Except RunError CoderTask

/-- A GitHub issue comment as consulted by `commentOnIssue`. -/
structure GhComment where
  id : Nat
  body : Option String
  deriving DecidableEq, Repr

/-- Outcomes the GitHub API delivers to the comment operations of one run. -/
structure GithubEnv where
  listCommentsNet : Except String (List GhComment)
  updateNet : Except String Unit
  createNet : Except String Unit

/-- The outward side-effecting calls a run makes, in order. -/
inductive Event where
  | createTask (owner : String) (req : CreateTaskRequest)
  | sendInput (owner : String) (taskId : String) (input : String)
  | readyWait (owner : String) (taskId : String) (timeoutMs : Nat)
  | ghListComments
  | ghUpdateComment (commentId : Nat) (body : String)
  | ghCreateComment (body : String)
  deriving DecidableEq, Repr

/-- Whether an event is a call on the GitHub notification sink. -/
def isGhEvent : Event → Bool
  | .ghListComments => true
  | .ghUpdateComment _ _ => true
  | .ghCreateComment _ => true
  | _ => false

/-! ## The notification sink (`CoderTaskAction.commentOnIssue`) -/

/-- The scan `comments.reverse().find(c => c.body?.startsWith("Task created:"))`. -/
def findExistingComment (comments : List GhComment) : Option GhComment :=
  comments.reverse.find? (fun c =>
    match c.body with
    | some b => List.isPrefixOf "Task created:".data b.data
    | none => false)

/-- The body of the `try` block of `CoderTaskAction.commentOnIssue`: list the
issue comments, update the most recent `Task created:` comment in place, or
create a new comment.  Returns the events issued and the error the block
raised, if any. -/
def commentOnIssueTry (gh : GithubEnv) (taskUrl : String) :
    List Event × Option String :=
  let body := "Task created: " ++ taskUrl
  match gh.listCommentsNet with
  | .error e => ([.ghListComments], some e)
  | .ok comments =>
    match findExistingComment comments with
    | some c =>
      match gh.updateNet with
      | .error e => ([.ghListComments, .ghUpdateComment c.id body], some e)
      | .ok _ => ([.ghListComments, .ghUpdateComment c.id body], none)
    | none =>
      match gh.createNet with
      | .error e => ([.ghListComments, .ghCreateComment body], some e)
      | .ok _ => ([.ghListComments, .ghCreateComment body], none)

/-- `CoderTaskAction.commentOnIssue`: the `catch` block swallows every error
of the `try` block (it only logs `core.error`), so the caller observes only
the events and never a failure. -/
def commentOnIssue (gh : GithubEnv) (taskUrl : String) : List Event :=
  (commentOnIssueTry gh taskUrl).1

/-! ## The orchestration (`CoderTaskAction.run`) -/

/-- Result of one run: the event trace, the outcome (outputs or the error
the run aborted with) and the remote deployment as left behind (on a
successful create, the created task is appended to the task list the list
endpoint reports, modelling that the platform lists a task it created). -/
structure RunResult where
  events : List Event
  result : Except RunError ActionOutputs
  remote : RemoteEnv

/-- `TaskNameSchema.parse`: a `z.string().min(1)` brand; the empty string is
rejected. -/
def parseTaskName (s : String) : Except RunError String :=
  if 1 ≤ s.length then .ok s else .error (.jsError "Task name must not be empty")

/-- The existing-task branch of `CoderTaskAction.run`, after the optional
ready-wait: send the prompt to the existing task keyed by its id, and report
the existing task with `taskCreated = false`. -/
def runSendToExisting (i : ActionInputs) (r : RemoteEnv) (username : String)
    (existingTask : CoderTask) (preEvents : List Event) : RunResult :=
  match r.sendNet with
  | .error e =>
    ⟨preEvents ++ [.sendInput username existingTask.id i.coderTaskPrompt], .error e, r⟩
  | .ok _ =>
    ⟨preEvents ++ [.sendInput username existingTask.id i.coderTaskPrompt],
     .ok ⟨username, existingTask.name,
          generateTaskUrl i.coderURL username existingTask.id, false⟩, r⟩

/-- The task half of `CoderTaskAction.run`, entered once the user, the issue
reference, the task name, the template and the preset id have been resolved:
look the task up by name; if found, wait for it to become active when it is
not, then send the prompt and report `taskCreated = false`; if not found,
create it with the prompt as creation input, optionally comment on the
issue, and report `taskCreated = true`. -/
def runFromLookup (i : ActionInputs) (r : RemoteEnv) (gh : GithubEnv)
    (username taskName : String) (template : CoderTemplate)
    (presetID : Option String) : RunResult :=
  match getTask r.tasksNet taskName with
  | .error e => ⟨[], .error e, r⟩
  | .ok (some existingTask) =>
    if existingTask.status ≠ .active then
      match waitForTaskActive r.pollFetch 1200000 with
      | .error e =>
        ⟨[.readyWait username existingTask.id 1200000], .error e, r⟩
      | .ok _ =>
        runSendToExisting i r username existingTask
          [.readyWait username existingTask.id 1200000]
    else
      runSendToExisting i r username existingTask []
  | .ok none =>
    let req : CreateTaskRequest :=
      ⟨taskName, template.active_version_id, presetID, i.coderTaskPrompt⟩
    match r.createNet req with
    | .error e => ⟨[.createTask username req], .error e, r⟩
    | .ok createdTask =>
      let taskUrl := generateTaskUrl i.coderURL username createdTask.id
      let ghEvents := if i.commentOnIssue then commentOnIssue gh taskUrl else []
      let listedTasks := (match r.tasksNet with | .ok l => l | .error _ => [])
      ⟨.createTask username req :: ghEvents,
       .ok ⟨username, taskName, taskUrl, true⟩,
       {r with tasksNet := Except.ok (listedTasks ++ [createdTask])}⟩

/-- The template/preset stage of `CoderTaskAction.run`: fetch the template
and the presets of its active version, select the preset id, then hand over
to the task half (`runFromLookup`). -/
def runFromTemplate (i : ActionInputs) (r : RemoteEnv) (gh : GithubEnv)
    (username taskName : String) : RunResult :=
  match r.templateNet with
  | .error e => ⟨[], .error e, r⟩
  | .ok template =>
    match r.presetsNet with
    | .error e => ⟨[], .error e, r⟩
    | .ok templateVersionPresets =>
      match presetGuard i.coderTemplatePreset
          (selectPreset templateVersionPresets i.coderTemplatePreset) with
      | .error e => ⟨[], .error e, r⟩
      | .ok presetID =>
        runFromLookup i r gh username taskName template presetID

/-- `CoderTaskAction.run`: resolve the user from the GitHub user id, parse
the issue URL, derive the task name `{namePrefixInput}-{issueNumber}`, then
run the template/preset stage and the task half.  Every failing step aborts
the run with its error. -/
def run (i : ActionInputs) (r : RemoteEnv) (gh : GithubEnv) : RunResult :=
  match getCoderUserByGitHubId i.githubUserID r.usersNet with
  | .error e => ⟨[], .error e, r⟩
  | .ok coderUser =>
    match parseGithubIssueURL i.githubIssueURL with
    | .error e => ⟨[], .error e, r⟩
    | .ok (_githubOrg, _githubRepo, githubIssueNumber) =>
      if i.coderTaskNamePfx = "" ∨ i.githubIssueURL = "" then
        ⟨[], .error (.jsError
          "either taskName or both taskNamePrefix and issueURL must be provided"), r⟩
      else
        match parseTaskName (i.coderTaskNamePfx ++ "-" ++ toString githubIssueNumber) with
        | .error e => ⟨[], .error e, r⟩
        | .ok taskName => runFromTemplate i r gh coderUser.username taskName

/-- The task name `CoderTaskAction.run` derives for an issue:
`{namePrefixInput}-{issueNumber}`, the idempotency key. -/
def derivedTaskName (i : ActionInputs) (issueNumber : Nat) : String :=
  i.coderTaskNamePfx ++ "-" ++ toString issueNumber

/-! ## Concrete fixtures used by witnesses and counterexamples -/

/-- A concrete user whose GitHub account id is 7. -/
def cUser : CoderUser := ⟨"uid-1", "alice", some 7⟩

/-- A concrete template. -/
def cTemplate : CoderTemplate := ⟨"tpl-1", "my-template", "ver-1"⟩

/-- A concrete active idle task named `gh-42`. -/
def cCreated : CoderTask := ⟨"task-uuid-1", "gh-42", .active, some ⟨.idle⟩⟩

/-- Concrete action inputs for issue 42 with the default name. -/
def cInputs : ActionInputs :=
  ⟨"https://coder.test/", "tok", "my-template", "do the thing", "default", "gh",
   "https://github.com/acme/widgets/issues/42", "ghtok", some 7, none, none, true⟩

/-- A concrete remote deployment: one matching user, the template, no
presets, no existing tasks, creation succeeding with `cCreated`. -/
def cRemote : RemoteEnv :=
  ⟨.ok [cUser], .ok cTemplate, .ok [], .ok [], fun _ => cCreated, .ok (),
   fun _ => .ok cCreated⟩

/-- A concrete GitHub environment where every comment operation succeeds. -/
def cGh : GithubEnv := ⟨.ok [], .ok (), .ok ()⟩

/-- A concrete GitHub environment whose `listComments` call fails. -/
def cGhListFails : GithubEnv := ⟨.error "github comment failure", .ok (), .ok ()⟩

/-- Concrete action inputs supplying only the direct `coderUsername`
identity form, as `WithCoderUsernameSchema` admits. -/
def cInputsUsernameOnly : ActionInputs :=
  ⟨"https://coder.test/", "tok", "my-template", "do the thing", "default", "gh",
   "https://github.com/acme/widgets/issues/42", "ghtok", none, some "alice", none, true⟩

/-- The concrete remote deployment with the task `gh-42` already existing. -/
def cRemoteExisting : RemoteEnv := {cRemote with tasksNet := .ok [cCreated]}

/-- Whether an event is a create-task request. -/
def isCreateEvent : Event → Bool
  | .createTask _ _ => true
  | _ => false

/-- Whether an event is an input-send call. -/
def isSendEvent : Event → Bool
  | .sendInput _ _ _ => true
  | _ => false

/-- Whether an event is a ready-wait poll. -/
def isWaitEvent : Event → Bool
  | .readyWait _ _ _ => true
  | _ => false

/-- The run reaches the task-lookup half with user `user`, template `tmpl`,
issue number `issueNumber` and preset id `pid`: the identity resolves to
exactly `user`, the issue URL parses to `issueNumber`, the name-derivation
inputs are present, the template and presets resolve, and the preset guard
passes with `pid`. -/
def ReachesTaskLookup (i : ActionInputs) (r : RemoteEnv) (user : CoderUser)
    (tmpl : CoderTemplate) (issueNumber : Nat) (pid : Option String) : Prop :=
  (∃ gid, i.githubUserID = some gid ∧ gid ≠ 0)
  ∧ r.usersNet = .ok [user]
  ∧ (∃ org repo, parseGithubIssueURL i.githubIssueURL = .ok (org, repo, issueNumber))
  ∧ i.coderTaskNamePfx ≠ ""
  ∧ r.templateNet = .ok tmpl
  ∧ (∃ presets, r.presetsNet = .ok presets
      ∧ presetGuard i.coderTemplatePreset (selectPreset presets i.coderTemplatePreset) = .ok pid)

/-! ## List helper lemmas -/

/-- A scan by `find?` over `pre ++ x :: post` yields `x` when every element
of `pre` fails the predicate and `x` satisfies it. -/
theorem find?_append_first {α} (p : α → Bool) {pre : List α} (x : α) (post : List α)
    (hpre : ∀ q ∈ pre, p q = false) (hx : p x = true) :
    (pre ++ x :: post).find? p = some x := by
  induction pre with
  | nil => rw [List.nil_append, List.find?_cons_of_pos _ hx]
  | cons a l ih =>
    have ha : p a = false := hpre a (by simp)
    rw [List.cons_append, List.find?_cons_of_neg _ (by simp [ha])]
    exact ih (fun q hq => hpre q (by simp [hq]))

/-- A scan by `find?` yields nothing when every element fails the
predicate. -/
theorem find?_none {α} (p : α → Bool) {l : List α}
    (h : ∀ q ∈ l, p q = false) : l.find? p = none :=
  List.find?_eq_none.mpr (fun x hx => by simp [h x hx])

/-! ## Claim theorems: the client layer -/

/-- C3: user resolution enforces the exactly-one invariant.  An absent
GitHub user id fails with a 400 validation error and a zero id with a thrown
string, both for every network outcome (so before any network call); an
empty search result fails with 404; several matches fail with 409 and are
never resolved by picking the first; exactly one match is returned. -/
theorem getCoderUserByGitHubId_exactly_one :
    (∀ net, getCoderUserByGitHubId none net =
      .error (.api "GitHub user ID cannot be undefined" 400 none))
  ∧ (∀ net, getCoderUserByGitHubId (some 0) net =
      .error (.jsThrow "GitHub user ID cannot be 0"))
  ∧ (∀ gid, gid ≠ 0 → getCoderUserByGitHubId (some gid) (.ok []) =
      .error (.api ("No Coder user found with GitHub user ID " ++ toString gid) 404 none))
  ∧ (∀ gid u v rest, gid ≠ 0 →
      getCoderUserByGitHubId (some gid) (.ok (u :: v :: rest)) =
      .error (.api ("Multiple Coder users found with GitHub user ID " ++ toString gid) 409 none))
  ∧ (∀ gid u, gid ≠ 0 → getCoderUserByGitHubId (some gid) (.ok [u]) = .ok u) := by
  refine ⟨fun net => rfl, fun net => rfl, ?_, ?_, ?_⟩
  · intro gid h
    simp [getCoderUserByGitHubId, h]
  · intro gid u v rest h
    simp [getCoderUserByGitHubId, h]
  · intro gid u h
    simp [getCoderUserByGitHubId, h]

/-- Witness for C3 at concrete inputs: id 7 resolves the single match, an
empty result is 404, a duplicated result is 409. -/
theorem getCoderUserByGitHubId_exactly_one_witness :
    getCoderUserByGitHubId (some 7) (.ok [cUser]) = .ok cUser
  ∧ getCoderUserByGitHubId (some 7) (.ok []) =
      .error (.api "No Coder user found with GitHub user ID 7" 404 none)
  ∧ getCoderUserByGitHubId (some 7) (.ok [cUser, cUser]) =
      .error (.api "Multiple Coder users found with GitHub user ID 7" 409 none) :=
  ⟨getCoderUserByGitHubId_exactly_one.2.2.2.2 7 cUser (by decide),
   getCoderUserByGitHubId_exactly_one.2.2.1 7 (by decide),
   getCoderUserByGitHubId_exactly_one.2.2.2.1 7 cUser cUser [] (by decide)⟩

/-- C4: preset selection is deterministic list-order scanning.  With no
requested name the first preset with `Default` wins and absence of a default
is no error; with a requested (truthy) name the first exact name match wins,
and a miss is a hard error naming the request. -/
theorem selectPreset_list_order :
    (∀ pre (p : CoderPreset) post, (∀ q ∈ pre, q.Default = false) → p.Default = true →
      selectPreset (pre ++ p :: post) none = some p.ID)
  ∧ (∀ presets, (∀ p ∈ presets, p.Default = false) →
      selectPreset presets none = none
        ∧ presetGuard none (selectPreset presets none) = .ok none)
  ∧ (∀ pre (p : CoderPreset) post name, name ≠ "" → (∀ q ∈ pre, q.Name ≠ name) →
      p.Name = name → selectPreset (pre ++ p :: post) (some name) = some p.ID)
  ∧ (∀ presets name, name ≠ "" → (∀ p ∈ presets, p.Name ≠ name) →
      presetGuard (some name) (selectPreset presets (some name)) =
        .error (.jsError ("Preset " ++ name ++ " not found"))) := by
  refine ⟨?_, ?_, ?_, ?_⟩
  · intro pre p post hpre hp
    rw [selectPreset]
    simp only [jsTruthy, if_true]
    rw [find?_append_first _ p post (fun q hq => by simp [hpre q hq]) (by simp [hp])]
    rfl
  · intro presets h
    have hsel : selectPreset presets none = none := by
      rw [selectPreset]
      simp only [jsTruthy, if_true]
      rw [find?_none _ (fun q hq => by simp [h q hq])]
      rfl
    exact ⟨hsel, by rw [hsel]; rfl⟩
  · intro pre p post name hname hpre hp
    rw [selectPreset]
    have ht : jsTruthy (some name) = true := by simp [jsTruthy, hname]
    rw [ht]
    simp only [Bool.true_eq_false, if_false]
    rw [find?_append_first _ p post (fun q hq => by simp [hpre q hq]) (by simp [hp])]
    rfl
  · intro presets name hname h
    have ht : jsTruthy (some name) = true := by simp [jsTruthy, hname]
    have hsel : selectPreset presets (some name) = none := by
      rw [selectPreset, ht]
      simp only [Bool.true_eq_false, if_false]
      rw [find?_none _ (fun q hq => by simp [h q hq])]
      rfl
    rw [hsel, presetGuard, ht]
    rfl

/-- Witness for C4 at concrete preset lists: the default preset `b` is
selected among `[a, b]`, a defaultless list yields no preset and no error,
a requested name matches in list order, and a missed request errors. -/
theorem selectPreset_list_order_witness :
    selectPreset [⟨"a", "x", false⟩, ⟨"b", "y", true⟩] none = some "b"
  ∧ (selectPreset [⟨"a", "x", false⟩] none = none
      ∧ presetGuard none (selectPreset [⟨"a", "x", false⟩] none) = .ok none)
  ∧ selectPreset [⟨"a", "x", false⟩, ⟨"b", "y", true⟩] (some "y") = some "b"
  ∧ presetGuard (some "z") (selectPreset [⟨"a", "x", false⟩] (some "z")) =
      .error (.jsError "Preset z not found") :=
  ⟨selectPreset_list_order.1 [⟨"a", "x", false⟩] ⟨"b", "y", true⟩ []
      (by decide) (by decide),
   selectPreset_list_order.2.1 [⟨"a", "x", false⟩] (by decide),
   selectPreset_list_order.2.2.1 [⟨"a", "x", false⟩] ⟨"b", "y", true⟩ [] "y"
      (by decide) (by decide) (by decide),
   selectPreset_list_order.2.2.2 [⟨"a", "x", false⟩] "z" (by decide) (by decide)⟩

/-- C7: the request layer classifies responses uniformly.  Every non-2xx
response raises a typed error carrying the status code and the best-effort
body text; a failed body capture leaves an empty body; a 2xx response with
status 204 or a zero content length is a successful empty result with no
JSON parsing. -/
theorem request_classification :
    (∀ r : HttpResponse, respOk r = false →
      request r = .error (.api ("Coder API error: " ++ r.statusText) r.status
        (some (r.textResult.getD ""))))
  ∧ (∀ r : HttpResponse, respOk r = false → r.textResult = none →
      request r = .error (.api ("Coder API error: " ++ r.statusText) r.status (some "")))
  ∧ (∀ r : HttpResponse, respOk r = true →
      r.status = 204 ∨ r.contentLength = some "0" → request r = .ok none) := by
  refine ⟨?_, ?_, ?_⟩
  · intro r h
    simp [request, h]
  · intro r h ht
    simp [request, h, ht]
  · intro r h hz
    simp [request, h, hz]

/-- Witness for C7: a 500 response with a failed body capture raises the
typed error with empty body; a 204 response is an empty success. -/
theorem request_classification_witness :
    request ⟨500, "Internal Server Error", none, none, "ignored"⟩ =
      .error (.api "Coder API error: Internal Server Error" 500 (some ""))
  ∧ request ⟨204, "No Content", none, some "", ""⟩ = .ok none :=
  ⟨request_classification.2.1 ⟨500, "Internal Server Error", none, none, "ignored"⟩
      (by decide) rfl,
   request_classification.2.2 ⟨204, "No Content", none, some "", ""⟩
      (by decide) (Or.inl rfl)⟩

/-- C8: task lookup distinguishes absence from transport failure.  The
owner's list is scanned for the first exact name match; a 404 error from the
lookup yields "no task" rather than a failure; every other lookup error
propagates. -/
theorem getTask_absence_vs_failure :
    (∀ pre (t : CoderTask) post name, (∀ q ∈ pre, q.name ≠ name) → t.name = name →
      getTask (.ok (pre ++ t :: post)) name = .ok (some t))
  ∧ (∀ tasks name, (∀ t ∈ tasks, t.name ≠ name) → getTask (.ok tasks) name = .ok none)
  ∧ (∀ msg body name, getTask (.error (.api msg 404 body)) name = .ok none)
  ∧ (∀ e name, isApi404 e = false → getTask (.error e) name = .error e) := by
  refine ⟨?_, ?_, ?_, ?_⟩
  · intro pre t post name hpre ht
    rw [getTask,
      find?_append_first _ t post (fun q hq => by simp [hpre q hq]) (by simp [ht])]
  · intro tasks name h
    rw [getTask, find?_none _ (fun q hq => by simp [h q hq])]
  · intro msg body name
    rfl
  · intro e name h
    simp [getTask, h]

/-- Witness for C8: the task named `gh-42` is found among the owner's tasks,
a list without it yields no task, a 404 lookup yields no task, and a 500
lookup propagates. -/
theorem getTask_absence_vs_failure_witness :
    getTask (.ok [⟨"other-id", "gh-1", .active, none⟩, cCreated]) "gh-42" = .ok (some cCreated)
  ∧ getTask (.ok [⟨"other-id", "gh-1", .active, none⟩]) "gh-42" = .ok none
  ∧ getTask (.error (.api "nope" 404 none)) "gh-42" = .ok none
  ∧ getTask (.error (.api "boom" 500 none)) "gh-42" =
      .error (.api "boom" 500 none) :=
  ⟨getTask_absence_vs_failure.1 [⟨"other-id", "gh-1", .active, none⟩] cCreated [] "gh-42"
      (by decide) (by decide),
   getTask_absence_vs_failure.2.1 [⟨"other-id", "gh-1", .active, none⟩] "gh-42" (by decide),
   getTask_absence_vs_failure.2.2.1 "nope" none "gh-42",
   getTask_absence_vs_failure.2.2.2 (.api "boom" 500 none) "gh-42" (by decide)⟩

/-- C9: task URL generation is a pure function of the deployment URL, the
username and the task id: the result is the deployment URL with query,
fragment and trailing slash stripped, followed by `/tasks/{u}/{t}`; no `?`
or `#` survives in the base; a base ending in `/` loses that slash; and the
spec's concrete example holds. -/
theorem generateTaskUrl_strips :
    (∀ u t, generateTaskUrl "https://h.test/?x=1#y" u t =
      "https://h.test" ++ "/tasks/" ++ u ++ "/" ++ t)
  ∧ (∀ url u t, generateTaskUrl url u t =
      stripTrailingSlash (splitBase url) ++ "/tasks/" ++ u ++ "/" ++ t)
  ∧ (∀ url, '?' ∉ (splitBase url).data ∧ '#' ∉ (splitBase url).data)
  ∧ (∀ l : List Char, stripTrailingSlash (String.mk (l ++ ['/'])) = String.mk l) := by
  refine ⟨fun u t => rfl, fun url u t => rfl, ?_, ?_⟩
  · intro url
    constructor
    · intro h
      have := List.mem_takeWhile_imp (p := fun c => decide (c ≠ '?') && decide (c ≠ '#')) h
      simp at this
    · intro h
      have := List.mem_takeWhile_imp (p := fun c => decide (c ≠ '?') && decide (c ≠ '#')) h
      simp at this
  · intro l
    simp [stripTrailingSlash, List.getLast?_concat, List.dropLast_concat]

/-! ## Claim theorems: the ready-wait state machine -/

/-- A ready task has status `active`, hence not `error`. -/
theorem taskIsReady_status {t : CoderTask} (h : taskIsReady t = true) :
    t.status = .active := by
  unfold taskIsReady at h
  rcases Bool.and_eq_true_iff.mp h with ⟨h1, _⟩
  exact of_decide_eq_true h1

/-- The poll loop times out when no tick within the budget observes a ready
or errored task. -/
theorem waitAux_timeout (fetch : Nat → CoderTask) (timeoutMs : Nat) :
    ∀ fuel tick,
      (∀ m, tick ≤ m → m * 2000 < timeoutMs →
        taskIsReady (fetch m) = false ∧ (fetch m).status ≠ .error) →
      waitForTaskActiveAux fetch timeoutMs fuel tick =
        .error (.api (waitTimeoutMsg timeoutMs) 408 none) := by
  intro fuel
  induction fuel with
  | zero => intro tick h; rfl
  | succ fuel ih =>
    intro tick h
    rw [waitForTaskActiveAux]
    by_cases hlt : tick * 2000 < timeoutMs
    · obtain ⟨hr, he⟩ := h tick le_rfl hlt
      simp only [hlt, if_true, he, if_neg, hr, Bool.false_eq_true]
      exact ih (tick + 1) (fun m hm => h m (by omega))
    · simp [hlt]

/-- The poll loop succeeds at the first tick within the budget that observes
a ready task, provided no earlier tick observed a ready or errored task. -/
theorem waitAux_success (fetch : Nat → CoderTask) (timeoutMs : Nat) :
    ∀ fuel tick n, tick ≤ n → n - tick < fuel → n * 2000 < timeoutMs →
      (∀ m, tick ≤ m → m < n →
        taskIsReady (fetch m) = false ∧ (fetch m).status ≠ .error) →
      taskIsReady (fetch n) = true →
      waitForTaskActiveAux fetch timeoutMs fuel tick = .ok () := by
  intro fuel
  induction fuel with
  | zero => intro tick n _ h; omega
  | succ fuel ih =>
    intro tick n htn hfuel hn hbefore hready
    rw [waitForTaskActiveAux]
    rcases Nat.eq_or_lt_of_le htn with heq | hlt
    · subst heq
      have hne : (fetch tick).status ≠ .error := by
        rw [taskIsReady_status hready]; intro hc; exact TaskStatus.noConfusion hc
      simp [hn, hne, hready]
    · have hguard : tick * 2000 < timeoutMs := by
        have : tick * 2000 < n * 2000 := by omega
        omega
      obtain ⟨hr, he⟩ := hbefore tick le_rfl hlt
      simp only [hguard, if_true, he, if_neg, hr, Bool.false_eq_true]
      exact ih (tick + 1) n hlt (by omega) hn (fun m hm hmn => hbefore m (by omega) hmn) hready

/-- The poll loop fails terminally at the first tick within the budget that
observes an errored task, provided no earlier tick observed a ready or
errored task. -/
theorem waitAux_error (fetch : Nat → CoderTask) (timeoutMs : Nat) :
    ∀ fuel tick n, tick ≤ n → n - tick < fuel → n * 2000 < timeoutMs →
      (∀ m, tick ≤ m → m < n →
        taskIsReady (fetch m) = false ∧ (fetch m).status ≠ .error) →
      (fetch n).status = .error →
      waitForTaskActiveAux fetch timeoutMs fuel tick =
        .error (.api "Task entered error state while waiting for active state" 500 none) := by
  intro fuel
  induction fuel with
  | zero => intro tick n _ h; omega
  | succ fuel ih =>
    intro tick n htn hfuel hn hbefore herr
    rw [waitForTaskActiveAux]
    rcases Nat.eq_or_lt_of_le htn with heq | hlt
    · subst heq
      simp [hn, herr]
    · have hguard : tick * 2000 < timeoutMs := by
        have : tick * 2000 < n * 2000 := by omega
        omega
      obtain ⟨hr, he⟩ := hbefore tick le_rfl hlt
      simp only [hguard, if_true, he, if_neg, hr, Bool.false_eq_true]
      exact ih (tick + 1) n hlt (by omega) hn (fun m hm hmn => hbefore m (by omega) hmn) herr

/-- A tick within the budget is within the supplied fuel. -/
theorem tick_lt_fuel {n timeoutMs : Nat} (hn : n * 2000 < timeoutMs) :
    n - 0 < timeoutMs / 2000 + 1 := by
  have : n ≤ timeoutMs / 2000 :=
    (Nat.le_div_iff_mul_le (by norm_num)).mpr (Nat.le_of_lt hn)
  omega

/-- C2: the ready-wait state machine has exactly three terminal outcomes.
It returns successfully on the first 2-second poll tick within the budget
whose fetched task is active and idle; it fails immediately and terminally
with the task-error (500) on the first tick whose task status is `error`,
however much budget remains; and it fails with the timeout error carrying
the configured budget when every tick within the budget observes a
non-terminal task. -/
theorem waitForTaskActive_three_outcomes (fetch : Nat → CoderTask) (timeoutMs : Nat) :
    (∀ n, n * 2000 < timeoutMs → taskIsReady (fetch n) = true →
      (∀ m, m < n → taskIsReady (fetch m) = false ∧ (fetch m).status ≠ .error) →
      waitForTaskActive fetch timeoutMs = .ok ())
  ∧ (∀ n, n * 2000 < timeoutMs → (fetch n).status = .error →
      (∀ m, m < n → taskIsReady (fetch m) = false ∧ (fetch m).status ≠ .error) →
      waitForTaskActive fetch timeoutMs =
        .error (.api "Task entered error state while waiting for active state" 500 none))
  ∧ ((∀ n, n * 2000 < timeoutMs →
        taskIsReady (fetch n) = false ∧ (fetch n).status ≠ .error) →
      waitForTaskActive fetch timeoutMs =
        .error (.api (waitTimeoutMsg timeoutMs) 408 none)) := by
  refine ⟨?_, ?_, ?_⟩
  · intro n hn hready hbefore
    exact waitAux_success fetch timeoutMs (timeoutMs / 2000 + 1) 0 n (Nat.zero_le n)
      (tick_lt_fuel hn) hn (fun m _ hmn => hbefore m hmn) hready
  · intro n hn herr hbefore
    exact waitAux_error fetch timeoutMs (timeoutMs / 2000 + 1) 0 n (Nat.zero_le n)
      (tick_lt_fuel hn) hn (fun m _ hmn => hbefore m hmn) herr
  · intro h
    exact waitAux_timeout fetch timeoutMs (timeoutMs / 2000 + 1) 0 (fun m _ hm => h m hm)

/-- Witness for C2 at concrete poll streams: an immediately ready task
succeeds; an immediately errored task fails with the 500 task error; a task
pending throughout fails with the timeout error carrying the 5000ms budget. -/
theorem waitForTaskActive_three_outcomes_witness :
    waitForTaskActive (fun _ => cCreated) 5000 = .ok ()
  ∧ waitForTaskActive (fun _ => ⟨"task-uuid-1", "gh-42", .error, none⟩) 5000 =
      .error (.api "Task entered error state while waiting for active state" 500 none)
  ∧ waitForTaskActive (fun _ => ⟨"task-uuid-1", "gh-42", .pending, none⟩) 5000 =
      .error (.api (waitTimeoutMsg 5000) 408 none) :=
  ⟨(waitForTaskActive_three_outcomes (fun _ => cCreated) 5000).1 0 (by decide)
      (by decide) (fun m hm => absurd hm (Nat.not_lt_zero m)),
   (waitForTaskActive_three_outcomes (fun _ => ⟨"task-uuid-1", "gh-42", .error, none⟩) 5000).2.1
      0 (by decide) (by decide) (fun m hm => absurd hm (Nat.not_lt_zero m)),
   (waitForTaskActive_three_outcomes (fun _ => ⟨"task-uuid-1", "gh-42", .pending, none⟩) 5000).2.2
      (fun n _ => by constructor <;> decide)⟩

/-! ## Stage lemmas about `run` -/

/-- Deriving the task name never fails: the derived string contains the `-`
separator, hence is non-empty. -/
theorem parseTaskName_derived (i : ActionInputs) (issueNumber : Nat) :
    parseTaskName (i.coderTaskNamePfx ++ "-" ++ toString issueNumber) =
      .ok (derivedTaskName i issueNumber) := by
  rw [parseTaskName, derivedTaskName, if_pos]
  simp only [String.length_append]
  rw [show ("-" : String).length = 1 from rfl]
  omega

/-- Under the early-stage hypotheses the run reduces to its template stage
on the resolved username and the derived task name. -/
theorem run_eq_runFromTemplate {i : ActionInputs} {r : RemoteEnv} (gh : GithubEnv)
    {user : CoderUser} {issueNumber : Nat}
    (hgid : ∃ gid, i.githubUserID = some gid ∧ gid ≠ 0)
    (husers : r.usersNet = .ok [user])
    (hparse : ∃ org repo, parseGithubIssueURL i.githubIssueURL = .ok (org, repo, issueNumber))
    (hpfx : i.coderTaskNamePfx ≠ "") :
    run i r gh = runFromTemplate i r gh user.username (derivedTaskName i issueNumber) := by
  obtain ⟨gid, hgid, hgid0⟩ := hgid
  obtain ⟨org, repo, hparse⟩ := hparse
  have huser : getCoderUserByGitHubId i.githubUserID r.usersNet = .ok user := by
    rw [hgid, husers]
    simp [getCoderUserByGitHubId, hgid0]
  have hurl : i.githubIssueURL ≠ "" := by
    intro h0
    rw [h0] at hparse
    simp [parseGithubIssueURL] at hparse
  simp only [run, huser, hparse]
  rw [if_neg (by simp [hpfx, hurl])]
  simp only [parseTaskName_derived]

/-- Under the template-stage hypotheses the template stage reduces to the
task-lookup half. -/
theorem runFromTemplate_eq_runFromLookup {i : ActionInputs} {r : RemoteEnv}
    (gh : GithubEnv) (username taskName : String) {tmpl : CoderTemplate}
    {pid : Option String}
    (htmpl : r.templateNet = .ok tmpl)
    (hpre : ∃ presets, r.presetsNet = .ok presets
      ∧ presetGuard i.coderTemplatePreset (selectPreset presets i.coderTemplatePreset) = .ok pid) :
    runFromTemplate i r gh username taskName =
      runFromLookup i r gh username taskName tmpl pid := by
  obtain ⟨presets, hpresets, hguard⟩ := hpre
  simp only [runFromTemplate, htmpl, hpresets, hguard]

/-- Under `ReachesTaskLookup` the run reduces to the task-lookup half at the
resolved username and derived task name. -/
theorem run_eq_runFromLookup {i : ActionInputs} {r : RemoteEnv} (gh : GithubEnv)
    {user : CoderUser} {tmpl : CoderTemplate} {issueNumber : Nat} {pid : Option String}
    (h : ReachesTaskLookup i r user tmpl issueNumber pid) :
    run i r gh =
      runFromLookup i r gh user.username (derivedTaskName i issueNumber) tmpl pid := by
  obtain ⟨hgid, husers, hparse, hpfx, htmpl, hpre⟩ := h
  rw [run_eq_runFromTemplate gh hgid husers hparse hpfx,
    runFromTemplate_eq_runFromLookup gh _ _ htmpl hpre]

/-- Every run either aborts in an early stage with no events, or reaches the
task-lookup half. -/
theorem run_cases (i : ActionInputs) (r : RemoteEnv) (gh : GithubEnv) :
    (∃ e, run i r gh = ⟨[], .error e, r⟩)
  ∨ ∃ username taskName tmpl pid,
      run i r gh = runFromLookup i r gh username taskName tmpl pid := by
  rcases hu : getCoderUserByGitHubId i.githubUserID r.usersNet with e | coderUser
  · exact Or.inl ⟨e, by simp only [run, hu]⟩
  · rcases hp : parseGithubIssueURL i.githubIssueURL with e | ⟨org, repo, num⟩
    · exact Or.inl ⟨e, by simp only [run, hu, hp]⟩
    · by_cases hif : i.coderTaskNamePfx = "" ∨ i.githubIssueURL = ""
      · exact Or.inl ⟨_, by simp only [run, hu, hp]; rw [if_pos hif]⟩
      · rcases hn : parseTaskName (i.coderTaskNamePfx ++ "-" ++ toString num) with e | taskName
        · exact Or.inl ⟨e, by simp only [run, hu, hp]; rw [if_neg hif]; simp only [hn]⟩
        · have hrun : run i r gh = runFromTemplate i r gh coderUser.username taskName := by
            simp only [run, hu, hp]
            rw [if_neg hif]
            simp only [hn]
          rcases ht : r.templateNet with e | tmpl
          · exact Or.inl ⟨e, by rw [hrun]; simp only [runFromTemplate, ht]⟩
          · rcases hps : r.presetsNet with e | presets
            · exact Or.inl ⟨e, by rw [hrun]; simp only [runFromTemplate, ht, hps]⟩
            · rcases hg : presetGuard i.coderTemplatePreset
                  (selectPreset presets i.coderTemplatePreset) with e | pid
              · exact Or.inl ⟨e, by rw [hrun]; simp only [runFromTemplate, ht, hps, hg]⟩
              · exact Or.inr ⟨coderUser.username, taskName, tmpl, pid,
                  by rw [hrun]; simp only [runFromTemplate, ht, hps, hg]⟩

/-! ## Branch lemmas about the task-lookup half -/

/-- Every event the notification sink model issues is a GitHub event. -/
theorem commentOnIssue_events_gh (gh : GithubEnv) (taskUrl : String) :
    ∀ e ∈ commentOnIssue gh taskUrl, isGhEvent e = true := by
  unfold commentOnIssue commentOnIssueTry
  rcases hl : gh.listCommentsNet with e | comments
  · simp [isGhEvent]
  · rcases hf : findExistingComment comments with _ | c
    · rcases hc : gh.createNet with e | u <;> simp [hf, hc, isGhEvent]
    · rcases hu : gh.updateNet with e | u <;> simp [hf, hu, isGhEvent]

/-- On the found-existing-task path the task half issues no GitHub event and
only ever reports `taskCreated = false`. -/
theorem runFromLookup_found (i : ActionInputs) (r : RemoteEnv) (gh : GithubEnv)
    (username taskName : String) (tmpl : CoderTemplate) (pid : Option String)
    {t : CoderTask} (hfind : getTask r.tasksNet taskName = .ok (some t)) :
    (∀ e ∈ (runFromLookup i r gh username taskName tmpl pid).events, isGhEvent e = false)
  ∧ (∀ out, (runFromLookup i r gh username taskName tmpl pid).result = .ok out →
      out.taskCreated = false) := by
  simp only [runFromLookup, hfind]
  by_cases hst : t.status ≠ .active
  · rw [if_pos hst]
    rcases waitForTaskActive r.pollFetch 1200000 with e | u
    · constructor
      · intro e he
        simp at he
        simp [he, isGhEvent]
      · intro out hout
        simp at hout
    · simp only [runSendToExisting]
      rcases r.sendNet with e | u
      · constructor
        · intro e he
          simp at he
          rcases he with h | h <;> simp [h, isGhEvent]
        · intro out hout
          simp at hout
      · constructor
        · intro e he
          simp at he
          rcases he with h | h <;> simp [h, isGhEvent]
        · intro out hout
          simp at hout
          rw [← hout]
  · rw [if_neg hst]
    simp only [runSendToExisting]
    rcases r.sendNet with e | u
    · constructor
      · intro e he
        simp at he
        simp [he, isGhEvent]
      · intro out hout
        simp at hout
    · constructor
      · intro e he
        simp at he
        simp [he, isGhEvent]
      · intro out hout
        simp at hout
        rw [← hout]

/-- When the task half issues a GitHub event, the comment flag was set and
the run reported a newly created task. -/
theorem runFromLookup_gh_event (i : ActionInputs) (r : RemoteEnv) (gh : GithubEnv)
    (username taskName : String) (tmpl : CoderTemplate) (pid : Option String) :
    ∀ e ∈ (runFromLookup i r gh username taskName tmpl pid).events, isGhEvent e = true →
      i.commentOnIssue = true
      ∧ ∃ out, (runFromLookup i r gh username taskName tmpl pid).result = .ok out
          ∧ out.taskCreated = true := by
  rcases hl : getTask r.tasksNet taskName with e | ot
  · simp [runFromLookup, hl]
  · rcases ot with _ | t
    · simp only [runFromLookup, hl]
      rcases hc : r.createNet ⟨taskName, tmpl.active_version_id, pid, i.coderTaskPrompt⟩
          with e | createdTask
      · intro e he hg
        simp at he
        simp [he, isGhEvent] at hg
      · intro e he hg
        simp only [List.mem_cons] at he
        rcases he with h | h
        · simp [h, isGhEvent] at hg
        · by_cases hflag : i.commentOnIssue
          · exact ⟨hflag, ⟨_, rfl, rfl⟩⟩
          · rw [if_neg hflag] at h
            simp at h
    · have := runFromLookup_found i r gh username taskName tmpl pid hl
      intro e he hg
      have := this.1 e he
      rw [this] at hg
      exact absurd hg (by simp)

/-- When the comment flag is off the task half issues no GitHub event. -/
theorem runFromLookup_no_gh_of_noflag (i : ActionInputs) (r : RemoteEnv) (gh : GithubEnv)
    (username taskName : String) (tmpl : CoderTemplate) (pid : Option String)
    (hflag : i.commentOnIssue = false) :
    ∀ e ∈ (runFromLookup i r gh username taskName tmpl pid).events, isGhEvent e = false := by
  intro e he
  by_cases hg : isGhEvent e = true
  · obtain ⟨hcf, _⟩ := runFromLookup_gh_event i r gh username taskName tmpl pid e he hg
    rw [hflag] at hcf
    exact absurd hcf (by simp)
  · simpa using hg

/-- A GitHub event is none of the task-side events. -/
theorem isGhEvent_not_task {e : Event} (h : isGhEvent e = true) :
    isCreateEvent e = false ∧ isSendEvent e = false ∧ isWaitEvent e = false := by
  cases e <;> simp [isGhEvent, isCreateEvent, isSendEvent, isWaitEvent] at h ⊢

/-- The task half on a failing lookup: the error propagates with no event. -/
theorem runFromLookup_lookup_error (i : ActionInputs) (r : RemoteEnv) (gh : GithubEnv)
    (username taskName : String) (tmpl : CoderTemplate) (pid : Option String)
    {e : RunError} (hge : getTask r.tasksNet taskName = .error e) :
    runFromLookup i r gh username taskName tmpl pid = ⟨[], .error e, r⟩ := by
  simp only [runFromLookup, hge]

/-- The task half on a found active task with a successful send: the prompt
is sent keyed by the task id and the existing task is reported with
`taskCreated = false`. -/
theorem runFromLookup_found_active (i : ActionInputs) (r : RemoteEnv) (gh : GithubEnv)
    (username taskName : String) (tmpl : CoderTemplate) (pid : Option String)
    {t : CoderTask} (hfind : getTask r.tasksNet taskName = .ok (some t))
    (hact : t.status = .active) (hsend : r.sendNet = .ok ()) :
    runFromLookup i r gh username taskName tmpl pid =
      ⟨[.sendInput username t.id i.coderTaskPrompt],
       .ok ⟨username, t.name, generateTaskUrl i.coderURL username t.id, false⟩, r⟩ := by
  simp only [runFromLookup, hfind]
  rw [if_neg (by simp [hact])]
  simp [runSendToExisting, hsend]

/-- The task half on a found non-active task whose ready-wait fails: the
wait error propagates after the single ready-wait event, with no send. -/
theorem runFromLookup_wait_error (i : ActionInputs) (r : RemoteEnv) (gh : GithubEnv)
    (username taskName : String) (tmpl : CoderTemplate) (pid : Option String)
    {t : CoderTask} {e : RunError} (hfind : getTask r.tasksNet taskName = .ok (some t))
    (hnact : t.status ≠ .active)
    (hwait : waitForTaskActive r.pollFetch 1200000 = .error e) :
    runFromLookup i r gh username taskName tmpl pid =
      ⟨[.readyWait username t.id 1200000], .error e, r⟩ := by
  simp only [runFromLookup, hfind]
  rw [if_pos hnact]
  simp only [hwait]

/-- The task half on a found active task whose send fails: the send error
propagates after the single send event. -/
theorem runFromLookup_send_error (i : ActionInputs) (r : RemoteEnv) (gh : GithubEnv)
    (username taskName : String) (tmpl : CoderTemplate) (pid : Option String)
    {t : CoderTask} {e : RunError} (hfind : getTask r.tasksNet taskName = .ok (some t))
    (hact : t.status = .active) (hsend : r.sendNet = .error e) :
    runFromLookup i r gh username taskName tmpl pid =
      ⟨[.sendInput username t.id i.coderTaskPrompt], .error e, r⟩ := by
  simp only [runFromLookup, hfind]
  rw [if_neg (by simp [hact])]
  simp [runSendToExisting, hsend]

/-- The task half on an absent task whose create fails: the create error
propagates after the single create event, with no comment. -/
theorem runFromLookup_create_error (i : ActionInputs) (r : RemoteEnv) (gh : GithubEnv)
    (username taskName : String) (tmpl : CoderTemplate) (pid : Option String)
    {e : RunError} (hno : getTask r.tasksNet taskName = .ok none)
    (hcreate : r.createNet ⟨taskName, tmpl.active_version_id, pid, i.coderTaskPrompt⟩
      = .error e) :
    runFromLookup i r gh username taskName tmpl pid =
      ⟨[.createTask username ⟨taskName, tmpl.active_version_id, pid, i.coderTaskPrompt⟩],
       .error e, r⟩ := by
  simp only [runFromLookup, hno, hcreate]

/-- The task half on an absent task with a successful create: the single
create request carries the derived name, the active template version, the
preset id and the prompt as input; the new task is reported with
`taskCreated = true`; the remote lists the created task afterwards. -/
theorem runFromLookup_create (i : ActionInputs) (r : RemoteEnv) (gh : GithubEnv)
    (username taskName : String) (tmpl : CoderTemplate) (pid : Option String)
    {ct : CoderTask} (hno : getTask r.tasksNet taskName = .ok none)
    (hcreate : r.createNet ⟨taskName, tmpl.active_version_id, pid, i.coderTaskPrompt⟩
      = .ok ct) :
    runFromLookup i r gh username taskName tmpl pid =
      ⟨.createTask username ⟨taskName, tmpl.active_version_id, pid, i.coderTaskPrompt⟩ ::
        (if i.commentOnIssue then
          commentOnIssue gh (generateTaskUrl i.coderURL username ct.id) else []),
       .ok ⟨username, taskName, generateTaskUrl i.coderURL username ct.id, true⟩,
       {r with tasksNet := Except.ok ((match r.tasksNet with | .ok l => l | .error _ => []) ++ [ct])}⟩ := by
  simp only [runFromLookup, hno, hcreate]

/-! ## Claim theorems: the orchestration -/

/-- C1: the run is an idempotent get-or-create.  When a task with the
derived name exists in the owner's task list, the prompt is delivered via
the id-keyed input send and the run reports `created = false`; when no such
task exists, the run issues exactly one create request carrying the derived
name, the active template version id, the optional preset id and the prompt
as input, reports `created = true`, and performs no input send and no
ready-wait; hence two sequential runs for the same name yield
`created = true` then `created = false`. -/
theorem run_get_or_create :
    (∀ i r gh user tmpl issueNumber pid tasks t,
      ReachesTaskLookup i r user tmpl issueNumber pid →
      r.tasksNet = .ok tasks →
      tasks.find? (fun q => q.name = derivedTaskName i issueNumber) = some t →
      t.status = .active →
      r.sendNet = .ok () →
      run i r gh =
        ⟨[.sendInput user.username t.id i.coderTaskPrompt],
         .ok ⟨user.username, t.name,
              generateTaskUrl i.coderURL user.username t.id, false⟩, r⟩)
  ∧ (∀ i r gh user tmpl issueNumber pid tasks ct,
      ReachesTaskLookup i r user tmpl issueNumber pid →
      r.tasksNet = .ok tasks →
      tasks.find? (fun q => q.name = derivedTaskName i issueNumber) = none →
      r.createNet ⟨derivedTaskName i issueNumber, tmpl.active_version_id, pid,
        i.coderTaskPrompt⟩ = .ok ct →
      ((run i r gh).result = .ok ⟨user.username, derivedTaskName i issueNumber,
          generateTaskUrl i.coderURL user.username ct.id, true⟩
        ∧ (run i r gh).events.filter isCreateEvent =
            [.createTask user.username ⟨derivedTaskName i issueNumber,
              tmpl.active_version_id, pid, i.coderTaskPrompt⟩]
        ∧ ∀ e ∈ (run i r gh).events, isSendEvent e = false ∧ isWaitEvent e = false))
  ∧ (∀ i r gh user tmpl issueNumber pid tasks ct,
      ReachesTaskLookup i r user tmpl issueNumber pid →
      r.tasksNet = .ok tasks →
      tasks.find? (fun q => q.name = derivedTaskName i issueNumber) = none →
      r.createNet ⟨derivedTaskName i issueNumber, tmpl.active_version_id, pid,
        i.coderTaskPrompt⟩ = .ok ct →
      ct.name = derivedTaskName i issueNumber →
      ct.status = .active →
      r.sendNet = .ok () →
      ∃ out1 out2,
        (run i r gh).result = .ok out1 ∧ out1.taskCreated = true
        ∧ (run i (run i r gh).remote gh).result = .ok out2
        ∧ out2.taskCreated = false) := by
  refine ⟨?_, ?_, ?_⟩
  · intro i r gh user tmpl issueNumber pid tasks t hreach hts hfind hact hsend
    rw [run_eq_runFromLookup gh hreach]
    exact runFromLookup_found_active i r gh user.username _ tmpl pid
      (by rw [hts]; simp [getTask, hfind]) hact hsend
  · intro i r gh user tmpl issueNumber pid tasks ct hreach hts hfind hcreate
    have hrun : run i r gh =
        ⟨.createTask user.username ⟨derivedTaskName i issueNumber,
            tmpl.active_version_id, pid, i.coderTaskPrompt⟩ ::
          (if i.commentOnIssue then
            commentOnIssue gh (generateTaskUrl i.coderURL user.username ct.id) else []),
         .ok ⟨user.username, derivedTaskName i issueNumber,
              generateTaskUrl i.coderURL user.username ct.id, true⟩,
         {r with tasksNet := Except.ok (tasks ++ [ct])}⟩ := by
      rw [run_eq_runFromLookup gh hreach]
      have h1 := runFromLookup_create i r gh user.username (derivedTaskName i issueNumber)
        tmpl pid (by rw [hts]; simp [getTask, hfind]) hcreate
      rw [hts] at h1
      exact h1
    have hgh : ∀ e ∈ (if i.commentOnIssue then
        commentOnIssue gh (generateTaskUrl i.coderURL user.username ct.id) else []),
        isGhEvent e = true := by
      by_cases hflag : i.commentOnIssue
      · rw [if_pos hflag]
        exact commentOnIssue_events_gh gh _
      · rw [if_neg hflag]
        intro e he
        simp at he
    refine ⟨by rw [hrun], ?_, ?_⟩
    · rw [hrun]
      simp only [List.filter_cons]
      rw [if_pos (by simp [isCreateEvent])]
      rw [List.filter_eq_nil_iff.mpr (fun e he => by simp [(isGhEvent_not_task (hgh e he)).1])]
    · rw [hrun]
      intro e he
      simp only [List.mem_cons] at he
      rcases he with h | h
      · simp [h, isSendEvent, isWaitEvent]
      · obtain ⟨_, hs, hw⟩ := isGhEvent_not_task (hgh e h)
        exact ⟨hs, hw⟩
  · intro i r gh user tmpl issueNumber pid tasks ct hreach hts hfind hcreate hname hact hsend
    have hrun1 : run i r gh =
        ⟨.createTask user.username ⟨derivedTaskName i issueNumber,
            tmpl.active_version_id, pid, i.coderTaskPrompt⟩ ::
          (if i.commentOnIssue then
            commentOnIssue gh (generateTaskUrl i.coderURL user.username ct.id) else []),
         .ok ⟨user.username, derivedTaskName i issueNumber,
              generateTaskUrl i.coderURL user.username ct.id, true⟩,
         {r with tasksNet := Except.ok (tasks ++ [ct])}⟩ := by
      rw [run_eq_runFromLookup gh hreach]
      have h1 := runFromLookup_create i r gh user.username (derivedTaskName i issueNumber)
        tmpl pid (by rw [hts]; simp [getTask, hfind]) hcreate
      rw [hts] at h1
      exact h1
    have hreach' : ReachesTaskLookup i {r with tasksNet := Except.ok (tasks ++ [ct])}
        user tmpl issueNumber pid := by
      obtain ⟨hg, hu, hp, hx, ht, hpr⟩ := hreach
      exact ⟨hg, hu, hp, hx, ht, hpr⟩
    have hfind' : (tasks ++ [ct]).find?
        (fun q => q.name = derivedTaskName i issueNumber) = some ct := by
      refine find?_append_first _ ct [] ?_ (by simp [hname])
      intro q hq
      have := List.find?_eq_none.mp hfind q hq
      simpa using this
    have hrun2 : run i {r with tasksNet := Except.ok (tasks ++ [ct])} gh =
        ⟨[.sendInput user.username ct.id i.coderTaskPrompt],
         .ok ⟨user.username, ct.name,
              generateTaskUrl i.coderURL user.username ct.id, false⟩,
         {r with tasksNet := Except.ok (tasks ++ [ct])}⟩ := by
      rw [run_eq_runFromLookup gh hreach']
      exact runFromLookup_found_active i _ gh user.username _ tmpl pid
        (by simp [getTask, hfind']) hact hsend
    have hmid : (run i r gh).remote = {r with tasksNet := Except.ok (tasks ++ [ct])} := by
      rw [hrun1]
    refine ⟨⟨user.username, derivedTaskName i issueNumber,
        generateTaskUrl i.coderURL user.username ct.id, true⟩,
      ⟨user.username, ct.name,
        generateTaskUrl i.coderURL user.username ct.id, false⟩, ?_, rfl, ?_, rfl⟩
    · rw [hrun1]
    · rw [hmid, hrun2]

/-- Witness for C1: on the concrete deployment with no existing task the
first run creates `gh-42` and reports `created = true`; the second run on
the deployment left behind finds it and reports `created = false`. -/
theorem run_get_or_create_witness :
    ∃ out1 out2,
      (run cInputs cRemote cGh).result = .ok out1 ∧ out1.taskCreated = true
      ∧ (run cInputs (run cInputs cRemote cGh).remote cGh).result = .ok out2
      ∧ out2.taskCreated = false :=
  run_get_or_create.2.2 cInputs cRemote cGh cUser cTemplate 42 none [] cCreated
    ⟨⟨7, rfl, by decide⟩, rfl, ⟨"acme", "widgets", by rfl⟩, by decide, rfl,
      ⟨[], rfl, rfl⟩⟩
    rfl rfl rfl rfl rfl rfl

/-- C6: the direct-username identity form is accepted by the input schema
union, yet the run never resolves it: with `githubUserID` absent the run
aborts with the 400 "GitHub user ID cannot be undefined" error for every
remote deployment and GitHub environment, so a username-only input can
never proceed to task orchestration. -/
theorem run_username_only_rejected :
    validIdentity cInputsUsernameOnly = true
  ∧ (∀ r gh, run cInputsUsernameOnly r gh =
      ⟨[], .error (.api "GitHub user ID cannot be undefined" 400 none), r⟩) :=
  ⟨by decide, fun r gh => rfl⟩

/-- C10: the issue-comment notification is reached only on the creation
path.  A run that finds an existing task issues no notification-sink call
and only reports `taskCreated = false`; with the comment flag off no run
issues a notification-sink call; and any notification-sink call implies the
flag was on and the run succeeded with a newly created task. -/
theorem run_comment_only_on_create :
    (∀ i r gh user tmpl issueNumber pid tasks t,
      ReachesTaskLookup i r user tmpl issueNumber pid →
      r.tasksNet = .ok tasks →
      tasks.find? (fun q => q.name = derivedTaskName i issueNumber) = some t →
      (∀ e ∈ (run i r gh).events, isGhEvent e = false)
      ∧ (∀ out, (run i r gh).result = .ok out → out.taskCreated = false))
  ∧ (∀ i r gh, i.commentOnIssue = false →
      ∀ e ∈ (run i r gh).events, isGhEvent e = false)
  ∧ (∀ i r gh e, e ∈ (run i r gh).events → isGhEvent e = true →
      i.commentOnIssue = true
      ∧ ∃ out, (run i r gh).result = .ok out ∧ out.taskCreated = true) := by
  refine ⟨?_, ?_, ?_⟩
  · intro i r gh user tmpl issueNumber pid tasks t hreach hts hfind
    rw [run_eq_runFromLookup gh hreach]
    exact @runFromLookup_found i r gh user.username _ tmpl pid t
      (by rw [hts]; simp [getTask, hfind])
  · intro i r gh hflag
    rcases run_cases i r gh with ⟨e, heq⟩ | ⟨u, tn, tmpl, pid, heq⟩
    · rw [heq]
      intro e he
      simp at he
    · rw [heq]
      exact runFromLookup_no_gh_of_noflag i r gh u tn tmpl pid hflag
  · intro i r gh e hmem hg
    rcases run_cases i r gh with ⟨e', heq⟩ | ⟨u, tn, tmpl, pid, heq⟩
    · rw [heq] at hmem
      simp at hmem
    · rw [heq] at hmem ⊢
      exact runFromLookup_gh_event i r gh u tn tmpl pid e hmem hg

/-- Witness for C10: on the concrete deployment with the task already
existing the run issues no GitHub call and reports reuse; on the concrete
creating run the GitHub list call that occurred implies the flag was on and
the task was newly created. -/
theorem run_comment_only_on_create_witness :
    ((∀ e ∈ (run cInputs cRemoteExisting cGh).events, isGhEvent e = false)
      ∧ (∀ out, (run cInputs cRemoteExisting cGh).result = .ok out →
          out.taskCreated = false))
  ∧ (cInputs.commentOnIssue = true
      ∧ ∃ out, (run cInputs cRemote cGh).result = .ok out ∧ out.taskCreated = true) :=
  ⟨run_comment_only_on_create.1 cInputs cRemoteExisting cGh cUser cTemplate 42 none
      [cCreated] cCreated
      ⟨⟨7, rfl, by decide⟩, rfl, ⟨"acme", "widgets", by rfl⟩, by decide, rfl,
        ⟨[], rfl, rfl⟩⟩
      rfl rfl,
   run_comment_only_on_create.2.2 cInputs cRemote cGh .ghListComments (by decide) rfl⟩

/-- C5 (amended): every error raised by identity resolution, template or
preset resolution, the task lookup, the ready-wait, the input send or the
create request aborts the run immediately as that single error with no
further steps; an error raised inside the issue-comment notification step,
however, is caught and only logged — the run still reports success. -/
theorem run_error_propagation :
    (∀ i r gh e, getCoderUserByGitHubId i.githubUserID r.usersNet = .error e →
      run i r gh = ⟨[], .error e, r⟩)
  ∧ (∀ i r gh user issueNumber e,
      (∃ gid, i.githubUserID = some gid ∧ gid ≠ 0) →
      r.usersNet = .ok [user] →
      (∃ org repo, parseGithubIssueURL i.githubIssueURL = .ok (org, repo, issueNumber)) →
      i.coderTaskNamePfx ≠ "" →
      r.templateNet = .error e →
      run i r gh = ⟨[], .error e, r⟩)
  ∧ (∀ i r gh user issueNumber tmpl e,
      (∃ gid, i.githubUserID = some gid ∧ gid ≠ 0) →
      r.usersNet = .ok [user] →
      (∃ org repo, parseGithubIssueURL i.githubIssueURL = .ok (org, repo, issueNumber)) →
      i.coderTaskNamePfx ≠ "" →
      r.templateNet = .ok tmpl →
      r.presetsNet = .error e →
      run i r gh = ⟨[], .error e, r⟩)
  ∧ (∀ i r gh user issueNumber tmpl presets e,
      (∃ gid, i.githubUserID = some gid ∧ gid ≠ 0) →
      r.usersNet = .ok [user] →
      (∃ org repo, parseGithubIssueURL i.githubIssueURL = .ok (org, repo, issueNumber)) →
      i.coderTaskNamePfx ≠ "" →
      r.templateNet = .ok tmpl →
      r.presetsNet = .ok presets →
      presetGuard i.coderTemplatePreset (selectPreset presets i.coderTemplatePreset)
        = .error e →
      run i r gh = ⟨[], .error e, r⟩)
  ∧ (∀ i r gh user tmpl issueNumber pid e,
      ReachesTaskLookup i r user tmpl issueNumber pid →
      r.tasksNet = .error e → isApi404 e = false →
      run i r gh = ⟨[], .error e, r⟩)
  ∧ (∀ i r gh user tmpl issueNumber pid tasks t e,
      ReachesTaskLookup i r user tmpl issueNumber pid →
      r.tasksNet = .ok tasks →
      tasks.find? (fun q => q.name = derivedTaskName i issueNumber) = some t →
      t.status ≠ .active →
      waitForTaskActive r.pollFetch 1200000 = .error e →
      run i r gh = ⟨[.readyWait user.username t.id 1200000], .error e, r⟩)
  ∧ (∀ i r gh user tmpl issueNumber pid tasks t e,
      ReachesTaskLookup i r user tmpl issueNumber pid →
      r.tasksNet = .ok tasks →
      tasks.find? (fun q => q.name = derivedTaskName i issueNumber) = some t →
      t.status = .active →
      r.sendNet = .error e →
      run i r gh = ⟨[.sendInput user.username t.id i.coderTaskPrompt], .error e, r⟩)
  ∧ (∀ i r gh user tmpl issueNumber pid tasks e,
      ReachesTaskLookup i r user tmpl issueNumber pid →
      r.tasksNet = .ok tasks →
      tasks.find? (fun q => q.name = derivedTaskName i issueNumber) = none →
      r.createNet ⟨derivedTaskName i issueNumber, tmpl.active_version_id, pid,
        i.coderTaskPrompt⟩ = .error e →
      run i r gh = ⟨[.createTask user.username ⟨derivedTaskName i issueNumber,
        tmpl.active_version_id, pid, i.coderTaskPrompt⟩], .error e, r⟩)
  ∧ (∀ i r gh user tmpl issueNumber pid tasks ct msg,
      ReachesTaskLookup i r user tmpl issueNumber pid →
      r.tasksNet = .ok tasks →
      tasks.find? (fun q => q.name = derivedTaskName i issueNumber) = none →
      r.createNet ⟨derivedTaskName i issueNumber, tmpl.active_version_id, pid,
        i.coderTaskPrompt⟩ = .ok ct →
      i.commentOnIssue = true →
      (commentOnIssueTry gh (generateTaskUrl i.coderURL user.username ct.id)).2
        = some msg →
      (run i r gh).result = .ok ⟨user.username, derivedTaskName i issueNumber,
        generateTaskUrl i.coderURL user.username ct.id, true⟩) := by
  refine ⟨?_, ?_, ?_, ?_, ?_, ?_, ?_, ?_, ?_⟩
  · intro i r gh e h
    simp only [run, h]
  · intro i r gh user issueNumber e hgid husers hparse hpfx he
    rw [run_eq_runFromTemplate gh hgid husers hparse hpfx]
    simp only [runFromTemplate, he]
  · intro i r gh user issueNumber tmpl e hgid husers hparse hpfx htmpl he
    rw [run_eq_runFromTemplate gh hgid husers hparse hpfx]
    simp only [runFromTemplate, htmpl, he]
  · intro i r gh user issueNumber tmpl presets e hgid husers hparse hpfx htmpl hpresets hg
    rw [run_eq_runFromTemplate gh hgid husers hparse hpfx]
    simp only [runFromTemplate, htmpl, hpresets, hg]
  · intro i r gh user tmpl issueNumber pid e hreach hts h404
    rw [run_eq_runFromLookup gh hreach]
    exact runFromLookup_lookup_error i r gh user.username _ tmpl pid
      (by rw [hts]; simp [getTask, h404])
  · intro i r gh user tmpl issueNumber pid tasks t e hreach hts hfind hnact hwait
    rw [run_eq_runFromLookup gh hreach]
    exact runFromLookup_wait_error i r gh user.username _ tmpl pid
      (by rw [hts]; simp [getTask, hfind]) hnact hwait
  · intro i r gh user tmpl issueNumber pid tasks t e hreach hts hfind hact hsend
    rw [run_eq_runFromLookup gh hreach]
    exact runFromLookup_send_error i r gh user.username _ tmpl pid
      (by rw [hts]; simp [getTask, hfind]) hact hsend
  · intro i r gh user tmpl issueNumber pid tasks e hreach hts hfind hcreate
    rw [run_eq_runFromLookup gh hreach]
    exact runFromLookup_create_error i r gh user.username _ tmpl pid
      (by rw [hts]; simp [getTask, hfind]) hcreate
  · intro i r gh user tmpl issueNumber pid tasks ct msg hreach hts hfind hcreate _ _
    rw [run_eq_runFromLookup gh hreach,
      runFromLookup_create i r gh user.username _ tmpl pid
        (by rw [hts]; simp [getTask, hfind]) hcreate]

/-- Witness for C5 at concrete inputs: a failing user search aborts the run
with that error and no events, while a failing GitHub comment listing is
swallowed and the run still reports the created task. -/
theorem run_error_propagation_witness :
    run cInputs {cRemote with usersNet := .error (.api "boom" 500 none)} cGh =
      ⟨[], .error (.api "boom" 500 none),
        {cRemote with usersNet := .error (.api "boom" 500 none)}⟩
  ∧ (run cInputs cRemote cGhListFails).result =
      .ok ⟨"alice", "gh-42", "https://coder.test/tasks/alice/task-uuid-1", true⟩ :=
  ⟨run_error_propagation.1 cInputs
      {cRemote with usersNet := .error (.api "boom" 500 none)} cGh
      (.api "boom" 500 none) rfl,
   run_error_propagation.2.2.2.2.2.2.2.2 cInputs cRemote cGhListFails cUser cTemplate
      42 none [] cCreated "github comment failure"
      ⟨⟨7, rfl, by decide⟩, rfl, ⟨"acme", "widgets", by rfl⟩, by decide, rfl,
        ⟨[], rfl, rfl⟩⟩
      rfl rfl rfl rfl rfl⟩

/-- C5 counterexample: at a concrete input the GitHub comment listing of the
notification step fails, yet the run does not abort: it swallows the error
and reports success, refuting that every error of every step surfaces as a
failure of the run. -/
theorem run_error_swallowed_cex :
    cGhListFails.listCommentsNet = .error "github comment failure"
  ∧ (run cInputs cRemote cGhListFails).events =
      [.createTask "alice" ⟨"gh-42", "ver-1", none, "do the thing"⟩, .ghListComments]
  ∧ (run cInputs cRemote cGhListFails).result =
      .ok ⟨"alice", "gh-42", "https://coder.test/tasks/alice/task-uuid-1", true⟩ :=
  ⟨rfl, rfl, rfl⟩

end CoderAction
